import Mathlib

/-!
Verification of the wte-mt-rx-parser message decoders.

The Rust source is shallowly embedded in Lean: strings are modelled as
lists of UTF-8 bytes (natural numbers below 256) or, at the dispatcher
level, as lists of characters; machine integers are natural numbers with
explicit truncation; fallible operations return Except values; and
operations that can panic (string slicing off a character boundary, the
fixed-size array conversion) return Option, with none standing for a
panic.
-/

/-- Errors of the parser, mirroring the ParseError enumeration in
src/lib.rs.  The payload of the Rust ParseIntError is not tracked, only
the fact that number parsing failed. -/
inductive ParseError where
  | ParseIntError : ParseError
  | SizeNotMatch : (expected : Nat) → (found : Nat) → ParseError
  | Invalid : ParseError
deriving DecidableEq

/-- One step of compute_checksum from src/mt_raw.rs: the body of the for
loop acting on the accumulator, with the u16 arithmetic of the Rust source
made explicit as arithmetic modulo 2 ^ 16. -/
def checksumStep (checksum byte : Nat) : Nat :=
  let c := checksum ^^^ byte
  if c &&& 0x8000 ≠ 0 then ((c <<< 1) % 2 ^ 16) ||| 0x01
  else (c <<< 1) % 2 ^ 16

/-- compute_checksum from src/mt_raw.rs: fold the loop body over the input
bytes starting from a zero accumulator. -/
def compute_checksum (data_source : List Nat) : Nat :=
  data_source.foldl checksumStep 0

/-- Reference step written from the words of the spec, section 4.5: XOR
the byte into the low 8 bits of the accumulator, then if bit 15 of the
accumulator is set, left-shift the 16-bit register by one (natural
truncation) and set bit 0; otherwise plain left-shift by one. -/
def specChecksumStep (acc byte : Nat) : Nat :=
  let a := 2 ^ 8 * (acc / 2 ^ 8) + (acc % 2 ^ 8 ^^^ byte % 2 ^ 8)
  if a.testBit 15 then ((2 * a) % 2 ^ 16) ||| 1
  else (2 * a) % 2 ^ 16

/-- Reference checksum fold written from the words of the spec: start from
an accumulator of 0 and apply the reference step to each byte in order. -/
def specComputeChecksum (bytes : List Nat) : Nat :=
  bytes.foldl specChecksumStep 0

lemma and_two_pow_ne_zero_iff (c n : Nat) :
    (c &&& 2 ^ n ≠ 0) ↔ c.testBit n = true := by
  constructor
  · intro h
    by_contra hbit
    apply h
    apply Nat.eq_of_testBit_eq
    intro i
    rw [Nat.testBit_and, Nat.zero_testBit]
    rcases eq_or_ne i n with rfl | hne
    · simp [Bool.eq_false_iff.mpr hbit]
    · simp [Nat.testBit_two_pow_of_ne (Ne.symm hne)]
  · intro h hzero
    have : (c &&& 2 ^ n).testBit n = false := by rw [hzero]; exact Nat.zero_testBit n
    rw [Nat.testBit_and, h, Nat.testBit_two_pow_self] at this
    simp at this

lemma xor_eq_high_add_low (acc b : Nat) (hb : b < 2 ^ 8) :
    acc ^^^ b = 2 ^ 8 * (acc / 2 ^ 8) + (acc % 2 ^ 8 ^^^ b) := by
  have hlow : acc % 2 ^ 8 ^^^ b < 2 ^ 8 :=
    Nat.xor_lt_two_pow (Nat.mod_lt _ (by norm_num)) hb
  apply Nat.eq_of_testBit_eq
  intro i
  rw [Nat.testBit_mul_pow_two_add _ hlow]
  by_cases h : i < 8
  · rw [if_pos h, Nat.testBit_xor, Nat.testBit_xor]
    congr 1
    rw [Nat.testBit_mod_two_pow]
    simp [h]
  · rw [if_neg h]
    have h8 : 8 ≤ i := Nat.le_of_not_lt h
    have hbfalse : b.testBit i = false := by
      apply Nat.testBit_lt_two_pow
      exact lt_of_lt_of_le hb (Nat.pow_le_pow_right (by norm_num) h8)
    have hdiv : (acc / 2 ^ 8).testBit (i - 8) = acc.testBit i := by
      rw [Nat.testBit_to_div_mod, Nat.testBit_to_div_mod,
        Nat.div_div_eq_div_mul, ← Nat.pow_add]
      have h8i : 8 + (i - 8) = i := by omega
      rw [h8i]
    rw [hdiv, Nat.testBit_xor, hbfalse, Bool.xor_false]

lemma checksumStep_eq_spec (acc b : Nat) (hb : b < 256) :
    checksumStep acc b = specChecksumStep acc b := by
  unfold checksumStep specChecksumStep
  have hb' : b % 2 ^ 8 = b := Nat.mod_eq_of_lt hb
  have hx : acc ^^^ b = 2 ^ 8 * (acc / 2 ^ 8) + (acc % 2 ^ 8 ^^^ b % 2 ^ 8) := by
    rw [hb']
    exact xor_eq_high_add_low acc b hb
  rw [← hx]
  have hcond : ((acc ^^^ b) &&& 0x8000 ≠ 0) = ((acc ^^^ b).testBit 15 = true) := by
    apply propext
    exact and_two_pow_ne_zero_iff (acc ^^^ b) 15
  have hshift : (acc ^^^ b) <<< 1 = 2 * (acc ^^^ b) := by
    rw [Nat.shiftLeft_eq, pow_one, Nat.mul_comm]
  by_cases hbit : (acc ^^^ b).testBit 15
  · rw [if_pos (by rw [hcond]; exact hbit), if_pos hbit, hshift]
  · rw [if_neg (by rw [hcond]; exact hbit), if_neg hbit, hshift]

lemma foldl_checksum_eq_spec (l : List Nat) (hl : ∀ b ∈ l, b < 256) (acc : Nat) :
    l.foldl checksumStep acc = l.foldl specChecksumStep acc := by
  induction l generalizing acc with
  | nil => rfl
  | cons b rest ih =>
    have hb : b < 256 := hl b (List.mem_cons_self b rest)
    have hrest : ∀ x ∈ rest, x < 256 := fun x hx => hl x (List.mem_cons_of_mem b hx)
    simp only [List.foldl_cons, checksumStep_eq_spec acc b hb]
    exact ih hrest (specChecksumStep acc b)

/-- UTF-8 encoding of a single character, as the list of its bytes. -/
def utf8EncodeChar (c : Char) : List Nat :=
  let n := c.toNat
  if n < 0x80 then [n]
  else if n < 0x800 then [0xC0 ||| (n >>> 6), 0x80 ||| (n &&& 0x3F)]
  else if n < 0x10000 then
    [0xE0 ||| (n >>> 12), 0x80 ||| ((n >>> 6) &&& 0x3F), 0x80 ||| (n &&& 0x3F)]
  else
    [0xF0 ||| (n >>> 18), 0x80 ||| ((n >>> 12) &&& 0x3F),
      0x80 ||| ((n >>> 6) &&& 0x3F), 0x80 ||| (n &&& 0x3F)]

/-- UTF-8 byte sequence of a list of characters. -/
def utf8Bytes : List Char → List Nat
  | [] => []
  | c :: cs => utf8EncodeChar c ++ utf8Bytes cs

/-- UTF-8 byte sequence of a string literal, used to state concrete
fixtures. -/
def strBytes (s : String) : List Nat := utf8Bytes s.toList

set_option maxRecDepth 16384

/-- C1: compute_checksum agrees with the reference fold written from the
spec on every byte sequence, it is total with the empty sequence yielding
0, and on the literal fixture payload it yields 0xF84B. -/
theorem C1_checksum_matches_spec_fold :
    (∀ l : List Nat, (∀ b ∈ l, b < 256) → compute_checksum l = specComputeChecksum l)
    ∧ compute_checksum [] = 0
    ∧ compute_checksum (strBytes "FFFE2FA00E0000CBAB959DB0903788C71B79") = 0xF84B := by
  refine ⟨fun l hl => foldl_checksum_eq_spec l hl 0, rfl, ?_⟩
  decide

/-- Witness for C1 at a concrete byte list. -/
theorem C1_checksum_matches_spec_fold_witness :
    compute_checksum [0x46, 0x45, 0x01] = specComputeChecksum [0x46, 0x45, 0x01] :=
  C1_checksum_matches_spec_fold.1 [0x46, 0x45, 0x01] (by decide)

/-- char::to_digit of a byte interpreted as a character: decimal digits,
then lowercase and uppercase letters, valid when below the radix. -/
def toDigit (radix b : Nat) : Option Nat :=
  let d :=
    if 0x30 ≤ b ∧ b ≤ 0x39 then some (b - 0x30)
    else if 0x61 ≤ b ∧ b ≤ 0x7A then some (b - 0x57)
    else if 0x41 ≤ b ∧ b ≤ 0x5A then some (b - 0x37)
    else none
  match d with
  | some v => if v < radix then some v else none
  | none => none

/-- Digit-accumulation loop of from_str_radix in the Rust core library:
multiply by the radix and add each digit, failing on a non-digit byte or
when the value would exceed the maximum of the integer type. -/
def parseDigitsLoop (radix maxVal : Nat) : List Nat → Nat → Option Nat
  | [], acc => some acc
  | b :: rest, acc =>
    match toDigit radix b with
    | none => none
    | some d =>
      if radix * acc + d ≤ maxVal then parseDigitsLoop radix maxVal rest (radix * acc + d)
      else none

/-- from_str_radix of the Rust core library for unsigned integer types,
over the bytes of the input: an optional leading plus sign followed by at
least one digit; a leading minus sign is not a digit for an unsigned type
and fails.  maxVal is the maximum value of the machine type. -/
def parseUnsignedBytes (radix maxVal : Nat) (src : List Nat) : Option Nat :=
  match src with
  | [] => none
  | b :: rest =>
    let digits := if b = 0x2B then rest else src
    if digits = [] then none
    else parseDigitsLoop radix maxVal digits 0

/-- Maximum value of usize on a 64-bit target. -/
def usizeMax : Nat := 2 ^ 64 - 1

/-- is_char_boundary of Rust str, on the underlying byte list: position 0,
the end of the list, or a byte that is not a UTF-8 continuation byte. -/
def isCharBoundary (bs : List Nat) (i : Nat) : Bool :=
  if i = 0 then true
  else
    match bs[i]? with
    | none => i == bs.length
    | some b => decide (b < 0x80) || decide (0xC0 ≤ b)

/-- Rust string slicing message[a..b] on the byte list: the bytes from a
to b when the range is ordered and both ends are character boundaries,
none for the panic raised otherwise. -/
def strSlice (bs : List Nat) (a b : Nat) : Option (List Nat) :=
  if a ≤ b ∧ isCharBoundary bs a ∧ isCharBoundary bs b then
    some ((bs.take b).drop a)
  else none

/-- RssType from src/rss.rs. -/
inductive RssType where
  | Frequency : RssType
  | Alert : RssType
deriving DecidableEq

/-- Rss record from src/rss.rs. -/
structure Rss where
  rss_type : RssType
  nnn : Nat
deriving DecidableEq

/-- is_rss from src/rss.rs: the message starts with the literal SS comma
prefix. -/
def rss.is_rss (message : List Nat) : Bool :=
  [0x53, 0x53, 0x2C].isPrefixOf message

/-- parse from src/rss.rs.  The outer Option models a panic of the byte
indexing or string slicing; the inner Except is the Rust Result. -/
def rss.parse (message : List Nat) : Option (Except ParseError Rss) :=
  if message.length ≠ 8 then
    some (Except.error (ParseError.SizeNotMatch 8 message.length))
  else
    match message[3]? with
    | none => none
    | some x =>
      match strSlice message 5 8 with
      | none => none
      | some sub =>
        match parseUnsignedBytes 10 255 sub with
        | none => some (Except.error ParseError.ParseIntError)
        | some nnn =>
          if x = 0x41 then some (Except.ok { rss_type := RssType.Alert, nnn := nnn })
          else if x = 0x31 then some (Except.ok { rss_type := RssType.Frequency, nnn := nnn })
          else some (Except.error ParseError.Invalid)

/-- MtRaw record from src/mt_raw.rs.  The header, id and data fields hold
the bytes of the corresponding substrings; the length-36 guarantee of the
Rust array type is established at the conversion site in parse. -/
structure MtRaw where
  header : List Nat
  id : List Nat
  sequence_number : Nat
  data : List Nat
  checksum : Nat
deriving DecidableEq

/-- is_mt from src/mt_raw.rs: the message starts with the literal MT6. -/
def mt_raw.is_mt (message : List Nat) : Bool :=
  [0x4D, 0x54, 0x36].isPrefixOf message

/-- parse from src/mt_raw.rs.  The outer Option models a panic: string
slicing off a character boundary, or failure of the unwrap on the
conversion of the payload slice into a fixed-size 36-byte array. -/
def mt_raw.parse (message : List Nat) : Option (Except ParseError MtRaw) :=
  if message.length ≠ 49 then
    some (Except.error (ParseError.SizeNotMatch 49 message.length))
  else
    match strSlice message 0 3 with
    | none => none
    | some header =>
      match strSlice message 3 6 with
      | none => none
      | some id =>
        match strSlice message 6 9 with
        | none => none
        | some seqBytes =>
          match parseUnsignedBytes 10 usizeMax seqBytes with
          | none => some (Except.error ParseError.ParseIntError)
          | some sequence_number =>
            match strSlice message 9 45 with
            | none => none
            | some data =>
              if data.length ≠ 36 then none
              else
                match strSlice message 45 49 with
                | none => none
                | some checksumBytes =>
                  match parseUnsignedBytes 16 65535 checksumBytes with
                  | none => some (Except.error ParseError.ParseIntError)
                  | some checksum =>
                    some (Except.ok
                      { header := header, id := id,
                        sequence_number := sequence_number,
                        data := data, checksum := checksum })

/-- CardinalDirection from src/mt_structured.rs. -/
inductive CardinalDirection where
  | North : CardinalDirection
  | South : CardinalDirection
  | West : CardinalDirection
  | East : CardinalDirection
  | Unknown : CardinalDirection
deriving DecidableEq

/-- From conversion of a character into CardinalDirection in
src/mt_structured.rs, applied to a byte since the Rust call sites convert
a byte to a character first (a byte as char keeps the code point). -/
def CardinalDirection.fromByte (b : Nat) : CardinalDirection :=
  if b = 0x57 then CardinalDirection.West
  else if b = 0x45 then CardinalDirection.East
  else if b = 0x4E then CardinalDirection.North
  else if b = 0x53 then CardinalDirection.South
  else CardinalDirection.Unknown

/-- MtMessageType from src/mt_structured.rs. -/
inductive MtMessageType where
  | Test : MtMessageType
  | Alert : MtMessageType
  | Unknown : MtMessageType
deriving DecidableEq

/-- From conversion of a character into MtMessageType in
src/mt_structured.rs, applied to a byte as at the call site. -/
def MtMessageType.fromByte (b : Nat) : MtMessageType :=
  if b = 0x54 then MtMessageType.Test
  else if b = 0x41 then MtMessageType.Alert
  else MtMessageType.Unknown

/-- MtStructured record from src/mt_structured.rs.  String fields hold the
bytes of the substrings; format_flag holds the code point of the stored
character. -/
structure MtStructured where
  header : List Nat
  id : List Nat
  sequence_number : Nat
  message_type : MtMessageType
  format_flag : Nat
  beacon : List Nat
  signal_strength : List Nat
  lat_degrees : Option Nat
  lat_minutes : Option Nat
  lat_seconds : Option Nat
  lat_direction : CardinalDirection
  long_degrees : Option Nat
  long_minutes : Option Nat
  long_seconds : Option Nat
  long_direction : CardinalDirection
  checksum : Nat
deriving DecidableEq

/-- is_mt from src/mt_structured.rs: the message starts with the literal
MT1. -/
def mt_structured.is_mt (message : List Nat) : Bool :=
  [0x4D, 0x54, 0x31].isPrefixOf message

/-- parse from src/mt_structured.rs.  The outer Option models a panic of
the byte indexing or string slicing; location fields use the ok fallback
of the source (Option values, never errors), the checksum uses the
unwrap_or zero fallback. -/
def mt_structured.parse (message : List Nat) : Option (Except ParseError MtStructured) :=
  if message.length ≠ 47 then
    some (Except.error (ParseError.SizeNotMatch 47 message.length))
  else
    match strSlice message 0 3 with
    | none => none
    | some header =>
      match strSlice message 3 6 with
      | none => none
      | some id =>
        match strSlice message 6 9 with
        | none => none
        | some seqBytes =>
          match parseUnsignedBytes 10 usizeMax seqBytes with
          | none => some (Except.error ParseError.ParseIntError)
          | some sequence_number =>
            match message[9]? with
            | none => none
            | some typeByte =>
              match message[10]? with
              | none => none
              | some format_flag =>
                match strSlice message 11 26 with
                | none => none
                | some beacon =>
                  match strSlice message 26 28 with
                  | none => none
                  | some signal_strength =>
                    match strSlice message 28 30 with
                    | none => none
                    | some latDegBytes =>
                      match strSlice message 30 32 with
                      | none => none
                      | some latMinBytes =>
                        match strSlice message 32 34 with
                        | none => none
                        | some latSecBytes =>
                          match message[34]? with
                          | none => none
                          | some latDirByte =>
                            match strSlice message 35 38 with
                            | none => none
                            | some longDegBytes =>
                              match strSlice message 38 40 with
                              | none => none
                              | some longMinBytes =>
                                match strSlice message 40 42 with
                                | none => none
                                | some longSecBytes =>
                                  match message[42]? with
                                  | none => none
                                  | some longDirByte =>
                                    match strSlice message 43 47 with
                                    | none => none
                                    | some checksumBytes =>
                                      some (Except.ok
                                        { header := header, id := id,
                                          sequence_number := sequence_number,
                                          message_type := MtMessageType.fromByte typeByte,
                                          format_flag := format_flag,
                                          beacon := beacon,
                                          signal_strength := signal_strength,
                                          lat_degrees := parseUnsignedBytes 10 255 latDegBytes,
                                          lat_minutes := parseUnsignedBytes 10 255 latMinBytes,
                                          lat_seconds := parseUnsignedBytes 10 255 latSecBytes,
                                          lat_direction := CardinalDirection.fromByte latDirByte,
                                          long_degrees := parseUnsignedBytes 10 65535 longDegBytes,
                                          long_minutes := parseUnsignedBytes 10 255 longMinBytes,
                                          long_seconds := parseUnsignedBytes 10 255 longSecBytes,
                                          long_direction := CardinalDirection.fromByte longDirByte,
                                          checksum := (parseUnsignedBytes 16 65535 checksumBytes).getD 0 })

/-- ParsedMessage from src/lib.rs. -/
inductive ParsedMessage where
  | Rss : Rss → ParsedMessage
  | MtStructured : MtStructured → ParsedMessage
  | MtRaw : MtRaw → ParsedMessage
  | Invalid : ParsedMessage
deriving DecidableEq

/-- Whitespace test of char::is_whitespace in the Rust core library: the
Unicode White_Space code points. -/
def isRustWhitespace (c : Char) : Bool :=
  decide ((0x09 ≤ c.toNat ∧ c.toNat ≤ 0x0D) ∨ c.toNat = 0x20 ∨ c.toNat = 0x85 ∨
    c.toNat = 0xA0 ∨ c.toNat = 0x1680 ∨ (0x2000 ≤ c.toNat ∧ c.toNat ≤ 0x200A) ∨
    c.toNat = 0x2028 ∨ c.toNat = 0x2029 ∨ c.toNat = 0x202F ∨ c.toNat = 0x205F ∨
    c.toNat = 0x3000)

/-- str::trim of the Rust core library on a character list: drop
whitespace characters from the front, then from the back. -/
def rustTrim (s : List Char) : List Char :=
  ((s.dropWhile isRustWhitespace).reverse.dropWhile isRustWhitespace).reverse

/-- parse from src/lib.rs: trim the line, classify by literal prefix in
source order, route to the matching family decoder wrapping its record,
and fall through to the Invalid variant inside an ok result. -/
def parse (message : List Char) : Option (Except ParseError ParsedMessage) :=
  let msg := utf8Bytes (rustTrim message)
  if rss.is_rss msg then (rss.parse msg).map (Except.map ParsedMessage.Rss)
  else if mt_structured.is_mt msg then
    (mt_structured.parse msg).map (Except.map ParsedMessage.MtStructured)
  else if mt_raw.is_mt msg then (mt_raw.parse msg).map (Except.map ParsedMessage.MtRaw)
  else some (Except.ok ParsedMessage.Invalid)

lemma isCharBoundary_ascii (bs : List Nat) (h : ∀ b ∈ bs, b < 128) (i : Nat)
    (hi : i ≤ bs.length) : isCharBoundary bs i = true := by
  unfold isCharBoundary
  by_cases h0 : i = 0
  · simp [h0]
  · rw [if_neg h0]
    rcases Nat.lt_or_ge i bs.length with hlt | hge
    · rw [List.getElem?_eq_getElem hlt]
      have hb : bs[i] < 128 := h _ (List.getElem_mem hlt)
      simp only [decide_eq_true_eq]
      simp
      omega
    · have hieq : i = bs.length := le_antisymm hi hge
      rw [List.getElem?_eq_none (by omega)]
      simp [hieq]

lemma strSlice_ascii (bs : List Nat) (h : ∀ b ∈ bs, b < 128) (a b : Nat)
    (hab : a ≤ b) (hb : b ≤ bs.length) :
    strSlice bs a b = some ((bs.take b).drop a) := by
  unfold strSlice
  rw [if_pos]
  exact ⟨hab, isCharBoundary_ascii bs h a (le_trans hab hb), isCharBoundary_ascii bs h b hb⟩

lemma parseDigitsLoop_le (radix maxVal : Nat) (l : List Nat) (acc n : Nat)
    (h : parseDigitsLoop radix maxVal l acc = some n) (hacc : acc ≤ maxVal) :
    n ≤ maxVal := by
  induction l generalizing acc with
  | nil =>
    unfold parseDigitsLoop at h
    injection h with h
    omega
  | cons b rest ih =>
    unfold parseDigitsLoop at h
    cases htd : toDigit radix b with
    | none => rw [htd] at h; simp only [] at h; cases h
    | some d =>
      rw [htd] at h
      simp only [] at h
      by_cases hle : radix * acc + d ≤ maxVal
      · rw [if_pos hle] at h
        exact ih _ h hle
      · rw [if_neg hle] at h
        cases h

lemma parseUnsignedBytes_le (radix maxVal : Nat) (src : List Nat) (n : Nat)
    (h : parseUnsignedBytes radix maxVal src = some n) : n ≤ maxVal := by
  unfold parseUnsignedBytes at h
  cases src with
  | nil => cases h
  | cons b rest =>
    simp only [] at h
    by_cases hd : (if b = 0x2B then rest else b :: rest) = []
    · rw [if_pos hd] at h; cases h
    · rw [if_neg hd] at h
      exact parseDigitsLoop_le _ _ _ _ _ h (Nat.zero_le _)

/-- C5: the RSS decoder checks size first, then decodes the level as an
unsigned 8-bit integer (values above 255 or non-numeric text fail with the
number-format error), then maps the discriminator byte, with any byte
other than the letter A or the digit 1 a hard Invalid error; decoded
levels always lie in 0..255, and the concrete fixtures behave as the spec
states. -/
theorem C5_rss_validation_order :
    (∀ bs : List Nat, bs.length ≠ 8 →
      rss.parse bs = some (Except.error (ParseError.SizeNotMatch 8 bs.length)))
    ∧ (∀ bs : List Nat, bs.length = 8 → (∀ b ∈ bs, b < 128) →
      parseUnsignedBytes 10 255 ((bs.take 8).drop 5) = none →
      rss.parse bs = some (Except.error ParseError.ParseIntError))
    ∧ (∀ bs r, rss.parse bs = some (Except.ok r) → r.nnn ≤ 255)
    ∧ (∀ bs n, bs.length = 8 → (∀ b ∈ bs, b < 128) →
      parseUnsignedBytes 10 255 ((bs.take 8).drop 5) = some n →
      (bs[3]? = some 0x41 →
        rss.parse bs = some (Except.ok { rss_type := RssType.Alert, nnn := n }))
      ∧ (bs[3]? = some 0x31 →
        rss.parse bs = some (Except.ok { rss_type := RssType.Frequency, nnn := n }))
      ∧ (∀ x, bs[3]? = some x → x ≠ 0x41 → x ≠ 0x31 →
        rss.parse bs = some (Except.error ParseError.Invalid)))
    ∧ rss.parse (strBytes "SS,A,123") = some (Except.ok { rss_type := RssType.Alert, nnn := 123 })
    ∧ rss.parse (strBytes "SS,2,123") = some (Except.error ParseError.Invalid)
    ∧ rss.parse (strBytes "SS,A,256") = some (Except.error ParseError.ParseIntError)
    ∧ rss.parse (strBytes "SS,1,666") = some (Except.error ParseError.ParseIntError)
    ∧ rss.parse (strBytes "SS,2,abc") = some (Except.error ParseError.ParseIntError) := by
  refine ⟨?_, ?_, ?_, ?_, by rfl, by rfl, by rfl, by rfl, by rfl⟩
  · intro bs hlen
    unfold rss.parse
    rw [if_pos hlen]
  · intro bs hlen hascii hparse
    unfold rss.parse
    rw [if_neg (by omega)]
    obtain ⟨x, hx⟩ : ∃ x, bs[3]? = some x :=
      ⟨_, List.getElem?_eq_getElem (by omega)⟩
    simp only [hx, strSlice_ascii bs hascii 5 8 (by norm_num) (by omega), hparse]
  · intro bs r h
    unfold rss.parse at h
    by_cases hlen : bs.length ≠ 8
    · rw [if_pos hlen] at h
      simp at h
    · rw [if_neg hlen] at h
      cases hx : bs[3]? with
      | none => rw [hx] at h; cases h
      | some x =>
        rw [hx] at h
        simp only [] at h
        cases hs : strSlice bs 5 8 with
        | none => rw [hs] at h; cases h
        | some sub =>
          rw [hs] at h
          simp only [] at h
          cases hp : parseUnsignedBytes 10 255 sub with
          | none => rw [hp] at h; simp at h
          | some nnn =>
            rw [hp] at h
            simp only [] at h
            have hnnn : nnn ≤ 255 := parseUnsignedBytes_le _ _ _ _ hp
            split_ifs at h with h1 h2
            · simp at h
              rw [← h]
              exact hnnn
            · simp at h
              rw [← h]
              exact hnnn
            · simp at h
  · intro bs n hlen hascii hparse
    have hcore : ∀ x, bs[3]? = some x →
        rss.parse bs =
          (if x = 0x41 then some (Except.ok { rss_type := RssType.Alert, nnn := n })
           else if x = 0x31 then some (Except.ok { rss_type := RssType.Frequency, nnn := n })
           else some (Except.error ParseError.Invalid)) := by
      intro x hx
      unfold rss.parse
      rw [if_neg (by omega)]
      simp only [hx, strSlice_ascii bs hascii 5 8 (by norm_num) (by omega), hparse]
    refine ⟨?_, ?_, ?_⟩
    · intro hx
      rw [hcore 0x41 hx]
      simp
    · intro hx
      rw [hcore 0x31 hx]
      simp
    · intro x hx hx1 hx2
      rw [hcore x hx, if_neg hx1, if_neg hx2]

/-- Witness for C5 at a concrete wrong-sized input. -/
theorem C5_rss_validation_order_witness :
    rss.parse [0x53] = some (Except.error (ParseError.SizeNotMatch 8 1)) := by
  have h := C5_rss_validation_order.1 [0x53] (by decide)
  simpa using h

lemma mt_raw_parse_ascii (bs : List Nat) (hlen : bs.length = 49)
    (hascii : ∀ b ∈ bs, b < 128) :
    mt_raw.parse bs =
      match parseUnsignedBytes 10 usizeMax ((bs.take 9).drop 6) with
      | none => some (Except.error ParseError.ParseIntError)
      | some n =>
        match parseUnsignedBytes 16 65535 ((bs.take 49).drop 45) with
        | none => some (Except.error ParseError.ParseIntError)
        | some c =>
          some (Except.ok
            { header := (bs.take 3).drop 0, id := (bs.take 6).drop 3,
              sequence_number := n, data := (bs.take 45).drop 9, checksum := c }) := by
  unfold mt_raw.parse
  rw [if_neg (by omega)]
  have hdata : ((bs.take 45).drop 9).length = 36 := by
    simp [hlen]
  simp only [strSlice_ascii bs hascii 0 3 (by norm_num) (by omega),
    strSlice_ascii bs hascii 3 6 (by norm_num) (by omega),
    strSlice_ascii bs hascii 6 9 (by norm_num) (by omega),
    strSlice_ascii bs hascii 9 45 (by norm_num) (by omega),
    strSlice_ascii bs hascii 45 49 (by norm_num) (by omega)]
  cases hseq : parseUnsignedBytes 10 usizeMax ((bs.take 9).drop 6) with
  | none => simp
  | some n =>
    simp only [hdata, if_neg (by omega : ¬(36 : Nat) ≠ 36)]

lemma mt_structured_parse_ascii (bs : List Nat) (hlen : bs.length = 47)
    (hascii : ∀ b ∈ bs, b < 128) (t f ld lg : Nat)
    (ht : bs[9]? = some t) (hf : bs[10]? = some f)
    (hld : bs[34]? = some ld) (hlg : bs[42]? = some lg) :
    mt_structured.parse bs =
      match parseUnsignedBytes 10 usizeMax ((bs.take 9).drop 6) with
      | none => some (Except.error ParseError.ParseIntError)
      | some n =>
        some (Except.ok
          { header := (bs.take 3).drop 0, id := (bs.take 6).drop 3,
            sequence_number := n,
            message_type := MtMessageType.fromByte t,
            format_flag := f,
            beacon := (bs.take 26).drop 11,
            signal_strength := (bs.take 28).drop 26,
            lat_degrees := parseUnsignedBytes 10 255 ((bs.take 30).drop 28),
            lat_minutes := parseUnsignedBytes 10 255 ((bs.take 32).drop 30),
            lat_seconds := parseUnsignedBytes 10 255 ((bs.take 34).drop 32),
            lat_direction := CardinalDirection.fromByte ld,
            long_degrees := parseUnsignedBytes 10 65535 ((bs.take 38).drop 35),
            long_minutes := parseUnsignedBytes 10 255 ((bs.take 40).drop 38),
            long_seconds := parseUnsignedBytes 10 255 ((bs.take 42).drop 40),
            long_direction := CardinalDirection.fromByte lg,
            checksum := (parseUnsignedBytes 16 65535 ((bs.take 47).drop 43)).getD 0 }) := by
  unfold mt_structured.parse
  rw [if_neg (by omega)]
  simp only [strSlice_ascii bs hascii 0 3 (by norm_num) (by omega),
    strSlice_ascii bs hascii 3 6 (by norm_num) (by omega),
    strSlice_ascii bs hascii 6 9 (by norm_num) (by omega),
    strSlice_ascii bs hascii 11 26 (by norm_num) (by omega),
    strSlice_ascii bs hascii 26 28 (by norm_num) (by omega),
    strSlice_ascii bs hascii 28 30 (by norm_num) (by omega),
    strSlice_ascii bs hascii 30 32 (by norm_num) (by omega),
    strSlice_ascii bs hascii 32 34 (by norm_num) (by omega),
    strSlice_ascii bs hascii 35 38 (by norm_num) (by omega),
    strSlice_ascii bs hascii 38 40 (by norm_num) (by omega),
    strSlice_ascii bs hascii 40 42 (by norm_num) (by omega),
    strSlice_ascii bs hascii 43 47 (by norm_num) (by omega),
    ht, hf, hld, hlg]

/-- C6: every family decoder rejects an input whose length differs from
the family's fixed width with a SizeNotMatch error carrying the expected
width (8, 47 or 49) and the actual length, before any field is examined. -/
theorem C6_size_mismatch_all_families :
    (∀ bs : List Nat, bs.length ≠ 8 →
      rss.parse bs = some (Except.error (ParseError.SizeNotMatch 8 bs.length)))
    ∧ (∀ bs : List Nat, bs.length ≠ 47 →
      mt_structured.parse bs = some (Except.error (ParseError.SizeNotMatch 47 bs.length)))
    ∧ (∀ bs : List Nat, bs.length ≠ 49 →
      mt_raw.parse bs = some (Except.error (ParseError.SizeNotMatch 49 bs.length))) := by
  refine ⟨?_, ?_, ?_⟩
  · intro bs hlen
    unfold rss.parse
    rw [if_pos hlen]
  · intro bs hlen
    unfold mt_structured.parse
    rw [if_pos hlen]
  · intro bs hlen
    unfold mt_raw.parse
    rw [if_pos hlen]

/-- Witness for C6 at concrete wrong-sized inputs for each family. -/
theorem C6_size_mismatch_all_families_witness :
    mt_structured.parse (strBytes "MT1001000AL400C592753572B323433212S172375") =
      some (Except.error (ParseError.SizeNotMatch 47 41)) := by
  have h := C6_size_mismatch_all_families.2.1
    (strBytes "MT1001000AL400C592753572B323433212S172375") (by decide)
  simpa using h

/-- C7: for both MT families the sequence number is the 3-character
substring at offsets 6..9 decoded as an unsigned decimal integer: a
non-numeric slice fails the parse with the number-format error, and no
bounds check against 0..511 is performed, so a value such as 999 is
accepted. -/
theorem C7_sequence_number_strict_and_unbounded :
    (∀ bs : List Nat, bs.length = 47 → (∀ b ∈ bs, b < 128) →
      parseUnsignedBytes 10 usizeMax ((bs.take 9).drop 6) = none →
      mt_structured.parse bs = some (Except.error ParseError.ParseIntError))
    ∧ (∀ bs : List Nat, bs.length = 49 → (∀ b ∈ bs, b < 128) →
      parseUnsignedBytes 10 usizeMax ((bs.take 9).drop 6) = none →
      mt_raw.parse bs = some (Except.error ParseError.ParseIntError))
    ∧ (∀ bs n, bs.length = 47 → (∀ b ∈ bs, b < 128) →
      parseUnsignedBytes 10 usizeMax ((bs.take 9).drop 6) = some n →
      ∃ r, mt_structured.parse bs = some (Except.ok r) ∧ r.sequence_number = n)
    ∧ (∀ bs n r, bs.length = 49 → (∀ b ∈ bs, b < 128) →
      parseUnsignedBytes 10 usizeMax ((bs.take 9).drop 6) = some n →
      mt_raw.parse bs = some (Except.ok r) → r.sequence_number = n)
    ∧ (∃ r, mt_structured.parse (strBytes "MT1001999AL400C592753572B323433212S1723756E4706") =
        some (Except.ok r) ∧ r.sequence_number = 999)
    ∧ (∃ r, mt_raw.parse (strBytes "MT6001999FFFE2FA00E0000CBAB959DB0903788C71B79F84B") =
        some (Except.ok r) ∧ r.sequence_number = 999) := by
  refine ⟨?_, ?_, ?_, ?_, ⟨_, rfl, rfl⟩, ⟨_, rfl, rfl⟩⟩
  · intro bs hlen hascii hseq
    obtain ⟨t, ht⟩ : ∃ t, bs[9]? = some t := ⟨_, List.getElem?_eq_getElem (by omega)⟩
    obtain ⟨f, hf⟩ : ∃ f, bs[10]? = some f := ⟨_, List.getElem?_eq_getElem (by omega)⟩
    obtain ⟨ld, hld⟩ : ∃ ld, bs[34]? = some ld := ⟨_, List.getElem?_eq_getElem (by omega)⟩
    obtain ⟨lg, hlg⟩ : ∃ lg, bs[42]? = some lg := ⟨_, List.getElem?_eq_getElem (by omega)⟩
    rw [mt_structured_parse_ascii bs hlen hascii t f ld lg ht hf hld hlg]
    simp only [hseq]
  · intro bs hlen hascii hseq
    rw [mt_raw_parse_ascii bs hlen hascii]
    simp only [hseq]
  · intro bs n hlen hascii hseq
    obtain ⟨t, ht⟩ : ∃ t, bs[9]? = some t := ⟨_, List.getElem?_eq_getElem (by omega)⟩
    obtain ⟨f, hf⟩ : ∃ f, bs[10]? = some f := ⟨_, List.getElem?_eq_getElem (by omega)⟩
    obtain ⟨ld, hld⟩ : ∃ ld, bs[34]? = some ld := ⟨_, List.getElem?_eq_getElem (by omega)⟩
    obtain ⟨lg, hlg⟩ : ∃ lg, bs[42]? = some lg := ⟨_, List.getElem?_eq_getElem (by omega)⟩
    rw [mt_structured_parse_ascii bs hlen hascii t f ld lg ht hf hld hlg]
    simp only [hseq]
    exact ⟨_, rfl, rfl⟩
  · intro bs n r hlen hascii hseq h
    rw [mt_raw_parse_ascii bs hlen hascii] at h
    simp only [hseq] at h
    cases hcs : parseUnsignedBytes 16 65535 ((bs.take 49).drop 45) with
    | none => rw [hcs] at h; simp at h
    | some c =>
      rw [hcs] at h
      simp only [Option.some.injEq, Except.ok.injEq] at h
      rw [← h]

/-- Witness for C7 at a concrete non-numeric sequence slice. -/
theorem C7_sequence_number_strict_and_unbounded_witness :
    mt_structured.parse (strBytes "MT1001aaaAL400C592753572B323433212S1723756E4706") =
      some (Except.error ParseError.ParseIntError) := by
  have h := C7_sequence_number_strict_and_unbounded.1
    (strBytes "MT1001aaaAL400C592753572B323433212S1723756E4706")
    (by decide) (by decide) (by decide)
  simpa using h

/-- C3: in the structured decoder the six location subfields are parsed
independently and leniently as optional values that are never an error,
direction bytes outside the four cardinal letters map to Unknown, the
checksum substitutes 0 on invalid hex, the all-dash sentinel leaves all
six optional fields absent, and latitude can be present while longitude is
absent. -/
theorem C3_structured_lenient_location_fields :
    (∀ bs n t f ld lg, bs.length = 47 → (∀ b ∈ bs, b < 128) →
      parseUnsignedBytes 10 usizeMax ((bs.take 9).drop 6) = some n →
      bs[9]? = some t → bs[10]? = some f → bs[34]? = some ld → bs[42]? = some lg →
      mt_structured.parse bs = some (Except.ok
        { header := (bs.take 3).drop 0, id := (bs.take 6).drop 3,
          sequence_number := n,
          message_type := MtMessageType.fromByte t,
          format_flag := f,
          beacon := (bs.take 26).drop 11,
          signal_strength := (bs.take 28).drop 26,
          lat_degrees := parseUnsignedBytes 10 255 ((bs.take 30).drop 28),
          lat_minutes := parseUnsignedBytes 10 255 ((bs.take 32).drop 30),
          lat_seconds := parseUnsignedBytes 10 255 ((bs.take 34).drop 32),
          lat_direction := CardinalDirection.fromByte ld,
          long_degrees := parseUnsignedBytes 10 65535 ((bs.take 38).drop 35),
          long_minutes := parseUnsignedBytes 10 255 ((bs.take 40).drop 38),
          long_seconds := parseUnsignedBytes 10 255 ((bs.take 42).drop 40),
          long_direction := CardinalDirection.fromByte lg,
          checksum := (parseUnsignedBytes 16 65535 ((bs.take 47).drop 43)).getD 0 }))
    ∧ (∀ b, b ≠ 0x4E → b ≠ 0x53 → b ≠ 0x45 → b ≠ 0x57 →
      CardinalDirection.fromByte b = CardinalDirection.Unknown)
    ∧ (∃ r, mt_structured.parse (strBytes "MT1001000AL400C592753572B323------S-------E4706") =
        some (Except.ok r) ∧ r.lat_degrees = none ∧ r.lat_minutes = none ∧ r.lat_seconds = none
        ∧ r.long_degrees = none ∧ r.long_minutes = none ∧ r.long_seconds = none)
    ∧ (∃ r, mt_structured.parse (strBytes "MT1001000AL400C592753572B323433212S-------E4706") =
        some (Except.ok r) ∧ r.lat_degrees = some 43 ∧ r.lat_minutes = some 32
        ∧ r.lat_seconds = some 12 ∧ r.long_degrees = none ∧ r.long_minutes = none
        ∧ r.long_seconds = none)
    ∧ (∃ r, mt_structured.parse (strBytes "MT1001000AL400C592753572B323433212S1723756EZZZZ") =
        some (Except.ok r) ∧ r.checksum = 0) := by
  refine ⟨?_, ?_, ⟨_, rfl, rfl, rfl, rfl, rfl, rfl, rfl⟩,
    ⟨_, rfl, rfl, rfl, rfl, rfl, rfl, rfl⟩, ⟨_, rfl, rfl⟩⟩
  · intro bs n t f ld lg hlen hascii hseq ht hf hld hlg
    rw [mt_structured_parse_ascii bs hlen hascii t f ld lg ht hf hld hlg]
    simp only [hseq]
  · intro b h1 h2 h3 h4
    unfold CardinalDirection.fromByte
    rw [if_neg h4, if_neg h3, if_neg h1, if_neg h2]

/-- Witness for C3 on the legitimate example packet. -/
theorem C3_structured_lenient_location_fields_witness :
    mt_structured.parse (strBytes "MT1001000AL400C592753572B323433212S1723756E4706") =
      some (Except.ok
        { header := strBytes "MT1", id := strBytes "001",
          sequence_number := 0,
          message_type := MtMessageType.Alert,
          format_flag := 0x4C,
          beacon := strBytes "400C592753572B3",
          signal_strength := strBytes "23",
          lat_degrees := some 43, lat_minutes := some 32, lat_seconds := some 12,
          lat_direction := CardinalDirection.South,
          long_degrees := some 172, long_minutes := some 37, long_seconds := some 56,
          long_direction := CardinalDirection.East,
          checksum := 0x4706 }) := by
  have h := C3_structured_lenient_location_fields.1
    (strBytes "MT1001000AL400C592753572B323433212S1723756E4706")
    0 0x41 0x4C 0x53 0x45 (by decide) (by decide) (by decide)
    (by decide) (by decide) (by decide) (by decide)
  rw [h]
  rfl

/-- C4: the raw decoder copies the 36-character payload verbatim with no
validation of its bytes, parses the trailing 4 characters strictly as
hexadecimal failing the whole parse on non-hex text, and on the literal
fixture produces a record whose payload fed through the checksum engine
equals its decoded checksum field 0xF84B. -/
theorem C4_raw_verbatim_payload_strict_checksum :
    (∀ bs n c, bs.length = 49 → (∀ b ∈ bs, b < 128) →
      parseUnsignedBytes 10 usizeMax ((bs.take 9).drop 6) = some n →
      parseUnsignedBytes 16 65535 ((bs.take 49).drop 45) = some c →
      mt_raw.parse bs = some (Except.ok
        { header := (bs.take 3).drop 0, id := (bs.take 6).drop 3,
          sequence_number := n, data := (bs.take 45).drop 9, checksum := c }))
    ∧ (∀ bs n, bs.length = 49 → (∀ b ∈ bs, b < 128) →
      parseUnsignedBytes 10 usizeMax ((bs.take 9).drop 6) = some n →
      parseUnsignedBytes 16 65535 ((bs.take 49).drop 45) = none →
      mt_raw.parse bs = some (Except.error ParseError.ParseIntError))
    ∧ mt_raw.parse (strBytes "MT6001001FFFE2FA00E0000CBAB959DB0903788C71B79ZZZZ") =
        some (Except.error ParseError.ParseIntError)
    ∧ (∃ r, mt_raw.parse (strBytes "MT6001001zz!!@@##qq--++==[[]]::;;~~||__^^%%&&F84B") =
        some (Except.ok r) ∧ r.data = strBytes "zz!!@@##qq--++==[[]]::;;~~||__^^%%&&")
    ∧ (∃ r, parse (String.toList "MT6001001FFFE2FA00E0000CBAB959DB0903788C71B79F84B") =
        some (Except.ok (ParsedMessage.MtRaw r))
        ∧ r.data = strBytes "FFFE2FA00E0000CBAB959DB0903788C71B79"
        ∧ compute_checksum r.data = 0xF84B ∧ r.checksum = 0xF84B) := by
  refine ⟨?_, ?_, rfl, ⟨_, rfl, rfl⟩, ⟨_, rfl, rfl, by decide, rfl⟩⟩
  · intro bs n c hlen hascii hseq hcs
    rw [mt_raw_parse_ascii bs hlen hascii]
    simp only [hseq, hcs]
  · intro bs n hlen hascii hseq hcs
    rw [mt_raw_parse_ascii bs hlen hascii]
    simp only [hseq, hcs]

/-- Witness for C4 on the raw fixture via the decoder directly. -/
theorem C4_raw_verbatim_payload_strict_checksum_witness :
    mt_raw.parse (strBytes "MT6001001FFFE2FA00E0000CBAB959DB0903788C71B79F84B") =
      some (Except.ok
        { header := strBytes "MT6", id := strBytes "001",
          sequence_number := 1,
          data := strBytes "FFFE2FA00E0000CBAB959DB0903788C71B79",
          checksum := 0xF84B }) := by
  have h := C4_raw_verbatim_payload_strict_checksum.1
    (strBytes "MT6001001FFFE2FA00E0000CBAB959DB0903788C71B79F84B")
    1 0xF84B (by decide) (by decide) (by decide) (by decide)
  rw [h]
  rfl

/-- C8: the legitimate example packet decodes through the dispatcher into
the structured variant with every field extracted at the documented byte
offsets. -/
theorem C8_structured_fixture_layout :
    ∃ r, parse (String.toList "MT1001000AL400C592753572B323433212S1723756E4706") =
        some (Except.ok (ParsedMessage.MtStructured r))
      ∧ r.header = strBytes "MT1" ∧ r.id = strBytes "001" ∧ r.sequence_number = 0
      ∧ r.message_type = MtMessageType.Alert ∧ r.format_flag = 0x4C
      ∧ r.beacon = strBytes "400C592753572B3" ∧ r.signal_strength = strBytes "23"
      ∧ r.lat_degrees = some 43 ∧ r.lat_minutes = some 32 ∧ r.lat_seconds = some 12
      ∧ r.lat_direction = CardinalDirection.South
      ∧ r.long_degrees = some 172 ∧ r.long_minutes = some 37 ∧ r.long_seconds = some 56
      ∧ r.long_direction = CardinalDirection.East ∧ r.checksum = 0x4706 := by
  refine ⟨_, rfl, ?_, ?_, ?_, ?_, ?_, ?_, ?_, ?_, ?_, ?_, ?_, ?_, ?_, ?_, ?_, ?_⟩ <;> rfl

/-- C9: on ASCII input no decoder panics: every byte-index slice taken
after the length check is in bounds and on a character boundary and the
raw decoder's fixed-size array conversion cannot fail; yet for a
non-ASCII input of the correct byte length, with a multi-byte character
straddling a field boundary, the slicing panics, so ASCII input is a
genuine precondition. -/
theorem C9_ascii_inputs_never_panic :
    (∀ bs : List Nat, (∀ b ∈ bs, b < 128) → rss.parse bs ≠ none)
    ∧ (∀ bs : List Nat, (∀ b ∈ bs, b < 128) → mt_structured.parse bs ≠ none)
    ∧ (∀ bs : List Nat, (∀ b ∈ bs, b < 128) → mt_raw.parse bs ≠ none)
    ∧ rss.parse [0x53, 0x53, 0x2C, 0x41, 0xC3, 0xA9, 0x31, 0x32] = none
    ∧ mt_structured.parse (strBytes "MT100100" ++ [0xC3, 0xA9] ++
        strBytes "L400C592753572B323433212S1723756E4706") = none
    ∧ mt_raw.parse (strBytes "MT600100" ++ [0xC3, 0xA9] ++
        strBytes "FFE2FA00E0000CBAB959DB0903788C71B79F84B") = none := by
  refine ⟨?_, ?_, ?_, by rfl, by rfl, by rfl⟩
  · intro bs hascii
    by_cases hlen : bs.length = 8
    · obtain ⟨x, hx⟩ : ∃ x, bs[3]? = some x := ⟨_, List.getElem?_eq_getElem (by omega)⟩
      unfold rss.parse
      rw [if_neg (by omega)]
      simp only [hx, strSlice_ascii bs hascii 5 8 (by norm_num) (by omega)]
      cases hp : parseUnsignedBytes 10 255 ((bs.take 8).drop 5) with
      | none => simp
      | some nnn =>
        simp only []
        split_ifs <;> simp
    · unfold rss.parse
      rw [if_pos hlen]
      simp
  · intro bs hascii
    by_cases hlen : bs.length = 47
    · obtain ⟨t, ht⟩ : ∃ t, bs[9]? = some t := ⟨_, List.getElem?_eq_getElem (by omega)⟩
      obtain ⟨f, hf⟩ : ∃ f, bs[10]? = some f := ⟨_, List.getElem?_eq_getElem (by omega)⟩
      obtain ⟨ld, hld⟩ : ∃ ld, bs[34]? = some ld := ⟨_, List.getElem?_eq_getElem (by omega)⟩
      obtain ⟨lg, hlg⟩ : ∃ lg, bs[42]? = some lg := ⟨_, List.getElem?_eq_getElem (by omega)⟩
      rw [mt_structured_parse_ascii bs hlen hascii t f ld lg ht hf hld hlg]
      cases hseq : parseUnsignedBytes 10 usizeMax ((bs.take 9).drop 6) <;> simp
    · unfold mt_structured.parse
      rw [if_pos hlen]
      simp
  · intro bs hascii
    by_cases hlen : bs.length = 49
    · rw [mt_raw_parse_ascii bs hlen hascii]
      cases hseq : parseUnsignedBytes 10 usizeMax ((bs.take 9).drop 6) with
      | none => simp
      | some n =>
        simp only []
        cases hcs : parseUnsignedBytes 16 65535 ((bs.take 49).drop 45) <;> simp
    · unfold mt_raw.parse
      rw [if_pos hlen]
      simp

/-- Witness for C9 on a concrete ASCII input. -/
theorem C9_ascii_inputs_never_panic_witness :
    rss.parse (strBytes "SS,A,123") ≠ none :=
  C9_ascii_inputs_never_panic.1 (strBytes "SS,A,123") (by decide)

lemma is_mt1_not_rss (msg : List Nat) (h : mt_structured.is_mt msg = true) :
    rss.is_rss msg = false := by
  match msg with
  | [] => simp [mt_structured.is_mt, List.isPrefixOf] at h
  | x :: rest =>
    simp only [mt_structured.is_mt, List.isPrefixOf, Bool.and_eq_true, beq_iff_eq] at h
    obtain ⟨rfl, -⟩ := h
    simp [rss.is_rss, List.isPrefixOf]

lemma is_mt6_not_rss (msg : List Nat) (h : mt_raw.is_mt msg = true) :
    rss.is_rss msg = false := by
  match msg with
  | [] => simp [mt_raw.is_mt, List.isPrefixOf] at h
  | x :: rest =>
    simp only [mt_raw.is_mt, List.isPrefixOf, Bool.and_eq_true, beq_iff_eq] at h
    obtain ⟨rfl, -⟩ := h
    simp [rss.is_rss, List.isPrefixOf]

lemma is_mt6_not_mt1 (msg : List Nat) (h : mt_raw.is_mt msg = true) :
    mt_structured.is_mt msg = false := by
  match msg with
  | [] => simp [mt_raw.is_mt, List.isPrefixOf] at h
  | [x] => simp [mt_raw.is_mt, List.isPrefixOf] at h
  | [x, y] => simp [mt_raw.is_mt, List.isPrefixOf] at h
  | x :: y :: z :: rest =>
    simp only [mt_raw.is_mt, List.isPrefixOf, Bool.and_eq_true, beq_iff_eq] at h
    obtain ⟨rfl, rfl, rfl, -⟩ := h
    simp [mt_structured.is_mt, List.isPrefixOf]

lemma parse_route_rss (s : List Char) (h : rss.is_rss (utf8Bytes (rustTrim s)) = true) :
    parse s = (rss.parse (utf8Bytes (rustTrim s))).map (Except.map ParsedMessage.Rss) := by
  simp only [parse, h, if_true]

lemma parse_route_mt1 (s : List Char)
    (h : mt_structured.is_mt (utf8Bytes (rustTrim s)) = true) :
    parse s =
      (mt_structured.parse (utf8Bytes (rustTrim s))).map (Except.map ParsedMessage.MtStructured) := by
  simp only [parse, h, is_mt1_not_rss _ h, if_true, Bool.false_eq_true, if_false]

lemma parse_route_mt6 (s : List Char) (h : mt_raw.is_mt (utf8Bytes (rustTrim s)) = true) :
    parse s = (mt_raw.parse (utf8Bytes (rustTrim s))).map (Except.map ParsedMessage.MtRaw) := by
  simp only [parse, h, is_mt6_not_rss _ h, is_mt6_not_mt1 _ h, if_true,
    Bool.false_eq_true, if_false]

lemma parse_route_fallthrough (s : List Char)
    (h1 : rss.is_rss (utf8Bytes (rustTrim s)) = false)
    (h2 : mt_structured.is_mt (utf8Bytes (rustTrim s)) = false)
    (h3 : mt_raw.is_mt (utf8Bytes (rustTrim s)) = false) :
    parse s = some (Except.ok ParsedMessage.Invalid) := by
  simp only [parse, h1, h2, h3, Bool.false_eq_true, if_false]

/-- C2: the dispatcher routes purely by literal prefix: SS comma to the
RSS decoder, MT1 to the structured decoder, MT6 to the raw decoder, every
other prefix to the Invalid variant inside an ok result; and a family
decoder failure propagates to the caller unchanged, never downgraded. -/
theorem C2_dispatcher_routes_by_prefix :
    (∀ s : List Char, rss.is_rss (utf8Bytes (rustTrim s)) = true →
      parse s = (rss.parse (utf8Bytes (rustTrim s))).map (Except.map ParsedMessage.Rss))
    ∧ (∀ s : List Char, mt_structured.is_mt (utf8Bytes (rustTrim s)) = true →
      parse s =
        (mt_structured.parse (utf8Bytes (rustTrim s))).map (Except.map ParsedMessage.MtStructured))
    ∧ (∀ s : List Char, mt_raw.is_mt (utf8Bytes (rustTrim s)) = true →
      parse s = (mt_raw.parse (utf8Bytes (rustTrim s))).map (Except.map ParsedMessage.MtRaw))
    ∧ (∀ s : List Char, rss.is_rss (utf8Bytes (rustTrim s)) = false →
      mt_structured.is_mt (utf8Bytes (rustTrim s)) = false →
      mt_raw.is_mt (utf8Bytes (rustTrim s)) = false →
      parse s = some (Except.ok ParsedMessage.Invalid))
    ∧ (∀ s e, rss.is_rss (utf8Bytes (rustTrim s)) = true →
      rss.parse (utf8Bytes (rustTrim s)) = some (Except.error e) →
      parse s = some (Except.error e))
    ∧ (∀ s e, mt_structured.is_mt (utf8Bytes (rustTrim s)) = true →
      mt_structured.parse (utf8Bytes (rustTrim s)) = some (Except.error e) →
      parse s = some (Except.error e))
    ∧ (∀ s e, mt_raw.is_mt (utf8Bytes (rustTrim s)) = true →
      mt_raw.parse (utf8Bytes (rustTrim s)) = some (Except.error e) →
      parse s = some (Except.error e))
    ∧ parse (String.toList "MT2001000AL400C592753572B323433212S1723756E4706") =
        some (Except.ok ParsedMessage.Invalid) := by
  refine ⟨parse_route_rss, parse_route_mt1, parse_route_mt6, parse_route_fallthrough,
    ?_, ?_, ?_, by rfl⟩
  · intro s e h hp
    rw [parse_route_rss s h, hp]
    rfl
  · intro s e h hp
    rw [parse_route_mt1 s h, hp]
    rfl
  · intro s e h hp
    rw [parse_route_mt6 s h, hp]
    rfl

/-- Witness for C2 on a concrete routed line with a failing decoder. -/
theorem C2_dispatcher_routes_by_prefix_witness :
    parse (String.toList "SS,2,123") = some (Except.error ParseError.Invalid) := by
  have h := C2_dispatcher_routes_by_prefix.2.2.2.2.1
    (String.toList "SS,2,123") ParseError.Invalid (by rfl) (by rfl)
  exact h

lemma dropWhile_dropWhile {α : Type} (p : α → Bool) (l : List α) :
    (l.dropWhile p).dropWhile p = l.dropWhile p := by
  induction l with
  | nil => rfl
  | cons a rest ih =>
    rw [List.dropWhile_cons]
    by_cases h : p a
    · rw [if_pos h]
      exact ih
    · rw [if_neg h, List.dropWhile_cons, if_neg h]

lemma head_fails_dropWhile {α : Type} (p : α → Bool) (l : List α) (a : α)
    (h : (l.dropWhile p).head? = some a) : p a = false := by
  induction l with
  | nil => simp at h
  | cons b rest ih =>
    rw [List.dropWhile_cons] at h
    by_cases hb : p b
    · rw [if_pos hb] at h
      exact ih h
    · rw [if_neg hb] at h
      simp only [List.head?_cons, Option.some.injEq] at h
      rw [← h]
      simpa using hb

lemma dropWhile_eq_self_of_head_fails {α : Type} (p : α → Bool) (l : List α)
    (h : ∀ a, l.head? = some a → p a = false) : l.dropWhile p = l := by
  cases l with
  | nil => rfl
  | cons a rest =>
    rw [List.dropWhile_cons, if_neg]
    simp [h a rfl]

lemma rustTrim_idem (s : List Char) : rustTrim (rustTrim s) = rustTrim s := by
  unfold rustTrim
  have hu_sfx :
      (s.dropWhile isRustWhitespace).reverse.dropWhile isRustWhitespace
        <:+ (s.dropWhile isRustWhitespace).reverse := List.dropWhile_suffix _
  have hpre :
      ((s.dropWhile isRustWhitespace).reverse.dropWhile isRustWhitespace).reverse
        <+: s.dropWhile isRustWhitespace := by
    simpa using List.reverse_prefix.mpr hu_sfx
  have hstepA :
      (((s.dropWhile isRustWhitespace).reverse.dropWhile isRustWhitespace).reverse).dropWhile
          isRustWhitespace
        = ((s.dropWhile isRustWhitespace).reverse.dropWhile isRustWhitespace).reverse := by
    apply dropWhile_eq_self_of_head_fails
    intro a ha
    obtain ⟨tail, htail⟩ := hpre
    apply head_fails_dropWhile isRustWhitespace s a
    rw [← htail]
    cases hrev : ((s.dropWhile isRustWhitespace).reverse.dropWhile isRustWhitespace).reverse with
    | nil => rw [hrev] at ha; simp at ha
    | cons b bs =>
      rw [hrev] at ha
      simp only [List.head?_cons, Option.some.injEq] at ha
      rw [List.cons_append, List.head?_cons, ha]
  rw [hstepA, List.reverse_reverse, dropWhile_dropWhile]

/-- C10: the dispatcher trims the line itself before prefix
classification, so parsing any input equals parsing its trimmed form, and
the 9-byte line consisting of the 8-character alert record plus a
trailing newline decodes successfully instead of failing the length
check. -/
theorem C10_parse_trims_before_classifying :
    (∀ s : List Char, parse s = parse (rustTrim s))
    ∧ (strBytes "SS,A,123\n").length = 9
    ∧ parse (String.toList "SS,A,123\n") =
        some (Except.ok (ParsedMessage.Rss { rss_type := RssType.Alert, nnn := 123 })) := by
  refine ⟨?_, by rfl, by rfl⟩
  intro s
  simp only [parse, rustTrim_idem]
